import Mathlib

/-!
Verification of the skinova clinic-management data model.

The definitions below are a shallow embedding of the Django models in
appointments/models.py and pos/models.py.  Dates and times are modelled as
natural numbers (a date is a day index, a time is minutes after midnight);
Decimal money amounts are modelled as exact rationals; foreign keys are
modelled as record fields or as numeric ids into an explicit store; raising
ValidationError or IntegrityError is modelled with Except.  Only fields read
or written by the modelled operations are embedded.
-/

namespace Skinova

/-- Appointment status choices, from Appointment.STATUS_CHOICES. -/
inductive Status
  | pending
  | confirmed
  | completed
  | cancelled
deriving DecidableEq, Repr

/-- Service (appointments/models.py).  Fields used by the modelled
operations: duration in minutes and the number of required sessions.
The id stands for the database primary key. -/
structure Service where
  id : Nat
  duration : Nat
  sessions_required : Nat
deriving DecidableEq, Repr

/-- Package (appointments/models.py).  The services field is the set of
linked service ids of the many-to-many relation; pk is none until the row
is persisted. -/
structure Package where
  pk : Option Nat
  services : List Nat
  total_sessions : Nat
deriving DecidableEq, Repr

/-- ClientPackage (appointments/models.py): a package assigned to a client
with a session counter.  Dates are day indices. -/
structure ClientPackage where
  id : Nat
  client : Nat
  package : Package
  sessions_completed : Nat
  is_completed : Bool
  completed_date : Option Nat
deriving DecidableEq, Repr

/-- ClientServiceSession (appointments/models.py): per-(client, service)
session tracking. -/
structure ClientServiceSession where
  id : Nat
  client : Nat
  service : Service
  sessions_completed : Nat
  is_completed : Bool
  completed_date : Option Nat
deriving DecidableEq, Repr

/-- ClientPackage.save override: recompute is_completed from the counter,
stamping completed_date when newly completed (if unset) and clearing it when
dropping back below the target.  The argument today models
timezone.now().date(). -/
def ClientPackage.save (today : Nat) (cp : ClientPackage) : ClientPackage :=
  if cp.sessions_completed ≥ cp.package.total_sessions then
    if cp.is_completed = false then
      { cp with is_completed := true,
                completed_date :=
                  if cp.completed_date = none then some today else cp.completed_date }
    else cp
  else
    if cp.is_completed = true then
      { cp with is_completed := false, completed_date := none }
    else cp

/-- ClientPackage.add_session: refuse when already completed, otherwise
increment, possibly mark completed with today as the date, then run the
save override (self.save()).  Returns the success flag and the new record. -/
def ClientPackage.add_session (today : Nat) (cp : ClientPackage) : Bool × ClientPackage :=
  if cp.is_completed = false then
    let cp1 := { cp with sessions_completed := cp.sessions_completed + 1 }
    let cp2 :=
      if cp1.sessions_completed ≥ cp1.package.total_sessions then
        { cp1 with is_completed := true, completed_date := some today }
      else cp1
    (true, ClientPackage.save today cp2)
  else
    (false, cp)

/-- ClientServiceSession.save override, same shape as ClientPackage.save
but against service.sessions_required. -/
def ClientServiceSession.save (today : Nat) (cs : ClientServiceSession) : ClientServiceSession :=
  if cs.sessions_completed ≥ cs.service.sessions_required then
    if cs.is_completed = false then
      { cs with is_completed := true,
                completed_date :=
                  if cs.completed_date = none then some today else cs.completed_date }
    else cs
  else
    if cs.is_completed = true then
      { cs with is_completed := false, completed_date := none }
    else cs

/-- ClientServiceSession.add_session, same shape as
ClientPackage.add_session. -/
def ClientServiceSession.add_session (today : Nat) (cs : ClientServiceSession) :
    Bool × ClientServiceSession :=
  if cs.is_completed = false then
    let cs1 := { cs with sessions_completed := cs.sessions_completed + 1 }
    let cs2 :=
      if cs1.sessions_completed ≥ cs1.service.sessions_required then
        { cs1 with is_completed := true, completed_date := some today }
      else cs1
    (true, ClientServiceSession.save today cs2)
  else
    (false, cs)

/-- A package of three services with a three-session target, used by the
concrete witnesses below. -/
def pkgThree : Package := { pk := some 1, services := [11, 12, 13], total_sessions := 3 }

/-- A service used by the concrete witnesses below. -/
def svcThree : Service := { id := 11, duration := 30, sessions_required := 3 }

/-- An in-progress client package at one session before its target. -/
def cpNearDone : ClientPackage :=
  { id := 1, client := 1, package := pkgThree, sessions_completed := 2,
    is_completed := false, completed_date := none }

/-- A completed client package. -/
def cpDone : ClientPackage :=
  { id := 2, client := 1, package := pkgThree, sessions_completed := 3,
    is_completed := true, completed_date := some 4 }

/-- An in-progress client service session at one session before its target. -/
def csNearDone : ClientServiceSession :=
  { id := 3, client := 1, service := svcThree, sessions_completed := 2,
    is_completed := false, completed_date := none }

/-- A completed client service session. -/
def csDone : ClientServiceSession :=
  { id := 4, client := 1, service := svcThree, sessions_completed := 3,
    is_completed := true, completed_date := some 4 }

/-- A client package in the state that refutes claim C4 as stated: the
counter is below the target, the flag is already false, but a (manually
edited) completion date is present. -/
def cpStaleDate : ClientPackage :=
  { id := 5, client := 1, package := pkgThree, sessions_completed := 1,
    is_completed := false, completed_date := some 5 }

/-- A client package whose counter was manually raised to the target while
the flag is still false. -/
def cpRaised : ClientPackage :=
  { id := 6, client := 1, package := pkgThree, sessions_completed := 3,
    is_completed := false, completed_date := none }

/-- A client package whose counter was manually dropped below the target
while the flag is still true. -/
def cpDropped : ClientPackage :=
  { id := 7, client := 1, package := pkgThree, sessions_completed := 1,
    is_completed := true, completed_date := some 4 }

/-- Errors a save can raise: ValidationError (full_clean), IntegrityError
(the database unique constraint), or exhaustion of the recursion bound of
the embedding (never reached from the entry point, which allows more
nesting than the source can produce). -/
inductive SaveError
  | validation (msg : String)
  | integrity
  | fuelExhausted
deriving DecidableEq, Repr

/-- Appointment (appointments/models.py).  The date is a day index, the
time is minutes after midnight; the two tracking links hold ids of rows in
the store. -/
structure Appointment where
  pk : Option Nat
  client : Nat
  service : Service
  staff : Nat
  appointment_date : Nat
  appointment_time : Nat
  status : Status
  client_package : Option Nat
  client_service_session : Option Nat
deriving DecidableEq, Repr

/-- datetime.combine of a day index and minutes after midnight, in
minutes. -/
def combineMinutes (d t : Nat) : Nat := d * 1440 + t

/-- The start instant of an appointment, in minutes. -/
def Appointment.startMinute (a : Appointment) : Nat :=
  combineMinutes a.appointment_date a.appointment_time

/-- The end instant of an appointment: start plus service.duration. -/
def Appointment.endMinute (a : Appointment) : Nat :=
  a.startMinute + a.service.duration

/-- One existing row of the queryset scanned by Appointment.clean: same
staff, same date, status pending or confirmed, a persisted row (the
exclude(pk=None) clause), and intervals intersecting under the half-open
rule. -/
def Appointment.overlapsActive (a e : Appointment) : Bool :=
  decide (e.staff = a.staff ∧ e.appointment_date = a.appointment_date ∧
    (e.status = Status.pending ∨ e.status = Status.confirmed) ∧
    e.pk ≠ none ∧
    a.startMinute < e.endMinute ∧ a.endMinute > e.startMinute)

/-- Appointment.clean: only a record without a primary key is checked for
double booking against the given table of persisted appointments. -/
def Appointment.clean (db : List Appointment) (a : Appointment) : Except SaveError Unit :=
  match a.pk with
  | none =>
    if db.any a.overlapsActive then
      Except.error (SaveError.validation "Appointment overlaps with existing appointment")
    else
      Except.ok ()
  | some _ => Except.ok ()

/-- The database state: persisted appointments, client packages and client
service sessions, the next primary key to hand out, and the current date
(timezone.now().date()). -/
structure Store where
  appointments : List Appointment
  client_packages : List ClientPackage
  client_sessions : List ClientServiceSession
  next_pk : Nat
  today : Nat
deriving DecidableEq, Repr

/-- The unique_staff_appointment_time constraint of Appointment.Meta: some
other persisted row shares (staff, appointment_date, appointment_time). -/
def uniqueConflict (db : List Appointment) (k : Nat) (a : Appointment) : Bool :=
  db.any fun e =>
    decide (e.pk ≠ some k ∧ e.staff = a.staff ∧
      e.appointment_date = a.appointment_date ∧ e.appointment_time = a.appointment_time)

/-- The database write of models.Model.save for Appointment: an insert
assigns the next primary key and appends the row, an update replaces the
row; either way the unique constraint on (staff, date, time) is enforced
against the other rows. -/
def Appointment.superSave (st : Store) (a : Appointment) :
    Except SaveError (Store × Appointment) :=
  match a.pk with
  | none =>
    let a1 := { a with pk := some st.next_pk }
    if uniqueConflict st.appointments st.next_pk a1 then
      Except.error SaveError.integrity
    else
      Except.ok ({ st with appointments := st.appointments ++ [a1],
                           next_pk := st.next_pk + 1 }, a1)
  | some k =>
    if uniqueConflict st.appointments k a then
      Except.error SaveError.integrity
    else
      Except.ok ({ st with appointments :=
        st.appointments.map fun e => if e.pk = some k then a else e }, a)

/-- ClientPackage.add_session invoked through a foreign key: look the row
up by id, run add_session, write the row back.  Write-through saving makes
this id-based view equal to the object-based view of the source. -/
def Store.cpAddSession (st : Store) (cpid : Nat) : Bool × Store :=
  match st.client_packages.find? (fun cp => cp.id == cpid) with
  | none => (false, st)
  | some cp =>
    let r := ClientPackage.add_session st.today cp
    (r.1, { st with client_packages :=
      st.client_packages.map fun x => if x.id == cpid then r.2 else x })

/-- ClientServiceSession.add_session invoked through a foreign key. -/
def Store.csAddSession (st : Store) (csid : Nat) : Bool × Store :=
  match st.client_sessions.find? (fun cs => cs.id == csid) with
  | none => (false, st)
  | some cs =>
    let r := ClientServiceSession.add_session st.today cs
    (r.1, { st with client_sessions :=
      st.client_sessions.map fun x => if x.id == csid then r.2 else x })

/-- Appointment.save with the body of _auto_track_session inlined at its
call site (the branch where neither tracking link is set).  The fuel bounds
the nesting of the save called from _auto_track_session to persist the
link; the source nests at most once, so any fuel of at least two behaves
like the source.  Steps, in source order: full_clean, remember whether the
record is new, the database write, then when an existing record is saved
with status completed follow the linked package, else the linked session,
else auto-detect: link the first active package of the client containing
the service and advance it, or for a multi-session service get-or-create
the (client, service) session row and advance it; each auto-detected link
is persisted by a nested save. -/
def Appointment.saveFuel : Nat → Store → Appointment → Except SaveError (Store × Appointment)
  | 0, _, _ => Except.error SaveError.fuelExhausted
  | Nat.succ fuel, st, a =>
    match Appointment.clean st.appointments a with
    | Except.error e => Except.error e
    | Except.ok _ =>
      let is_new := a.pk.isNone
      match Appointment.superSave st a with
      | Except.error e => Except.error e
      | Except.ok (st1, a1) =>
        if a1.status = Status.completed ∧ is_new = false then
          match a1.client_package with
          | some cpid => Except.ok ((Store.cpAddSession st1 cpid).2, a1)
          | none =>
            match a1.client_service_session with
            | some csid => Except.ok ((Store.csAddSession st1 csid).2, a1)
            | none =>
              match (st1.client_packages.filter fun cp =>
                  decide (cp.client = a1.client ∧ a1.service.id ∈ cp.package.services ∧
                    cp.is_completed = false)).head? with
              | some p =>
                let a2 := { a1 with client_package := some p.id }
                let st2 := (Store.cpAddSession st1 p.id).2
                Appointment.saveFuel fuel st2 a2
              | none =>
                if a1.service.sessions_required > 1 then
                  match st1.client_sessions.find? (fun cs =>
                      decide (cs.client = a1.client ∧ cs.service.id = a1.service.id)) with
                  | some ss =>
                    if ss.is_completed then
                      Except.ok (st1, a1)
                    else
                      let st2 := (Store.csAddSession st1 ss.id).2
                      let a2 := { a1 with client_service_session := some ss.id }
                      Appointment.saveFuel fuel st2 a2
                  | none =>
                    let ss : ClientServiceSession :=
                      { id := st1.next_pk, client := a1.client, service := a1.service,
                        sessions_completed := 0, is_completed := false,
                        completed_date := none }
                    let st2 := { st1 with
                      client_sessions := st1.client_sessions ++ [ss],
                      next_pk := st1.next_pk + 1 }
                    let st3 := (Store.csAddSession st2 ss.id).2
                    let a2 := { a1 with client_service_session := some ss.id }
                    Appointment.saveFuel fuel st3 a2
                else
                  Except.ok (st1, a1)
        else
          Except.ok (st1, a1)

/-- Appointment.save as called by the application: the nesting of saves is
bounded by two in the source, so a fuel of three is never exhausted. -/
def Appointment.save (st : Store) (a : Appointment) : Except SaveError (Store × Appointment) :=
  Appointment.saveFuel 3 st a

/-- True exactly on a ValidationError outcome. -/
def isValidationFailure {α : Type} : Except SaveError α → Bool
  | Except.error (SaveError.validation _) => true
  | _ => false

/-- True exactly on a successful outcome. -/
def exceptIsOk {ε α : Type} : Except ε α → Bool
  | Except.ok _ => true
  | Except.error _ => false

/-- A single-session service inside a package, for the C3 evaluation. -/
def c3Service : Service := { id := 7, duration := 60, sessions_required := 1 }

/-- A five-session package containing c3Service. -/
def c3Package : Package := { pk := some 10, services := [7], total_sessions := 5 }

/-- An incomplete assignment of c3Package with zero sessions done. -/
def c3CP : ClientPackage :=
  { id := 100, client := 1, package := c3Package, sessions_completed := 0,
    is_completed := false, completed_date := none }

/-- The persisted row of the appointment about to be completed. -/
def c3Row : Appointment :=
  { pk := some 50, client := 1, service := c3Service, staff := 2,
    appointment_date := 0, appointment_time := 600, status := Status.confirmed,
    client_package := none, client_service_session := none }

/-- The same appointment with its status edited to completed. -/
def c3Appt : Appointment := { c3Row with status := Status.completed }

/-- Store for the package branch of the C3 evaluation. -/
def c3Store : Store :=
  { appointments := [c3Row], client_packages := [c3CP], client_sessions := [],
    next_pk := 200, today := 77 }

/-- A three-session service with no package, for the session branch. -/
def c3bService : Service := { id := 8, duration := 60, sessions_required := 3 }

/-- The persisted row for the session branch. -/
def c3bRow : Appointment :=
  { pk := some 51, client := 1, service := c3bService, staff := 2,
    appointment_date := 0, appointment_time := 700, status := Status.confirmed,
    client_package := none, client_service_session := none }

/-- The session-branch appointment with status edited to completed. -/
def c3bAppt : Appointment := { c3bRow with status := Status.completed }

/-- Store for the session branch: no packages, no sessions yet. -/
def c3bStore : Store :=
  { appointments := [c3bRow], client_packages := [], client_sessions := [],
    next_pk := 200, today := 77 }

/-- A single-session service with no package: no tracking expected. -/
def c3cService : Service := { id := 9, duration := 60, sessions_required := 1 }

/-- The persisted row for the no-tracking branch. -/
def c3cRow : Appointment :=
  { pk := some 52, client := 1, service := c3cService, staff := 2,
    appointment_date := 0, appointment_time := 800, status := Status.confirmed,
    client_package := none, client_service_session := none }

/-- The no-tracking appointment with status edited to completed. -/
def c3cAppt : Appointment := { c3cRow with status := Status.completed }

/-- Store for the no-tracking branch. -/
def c3cStore : Store :=
  { appointments := [c3cRow], client_packages := [], client_sessions := [],
    next_pk := 200, today := 77 }

/-- A sixty-minute service for the worked example of the spec. -/
def exService60 : Service := { id := 1, duration := 60, sessions_required := 1 }

/-- A persisted pending appointment at 10:00 (minute 600) for staff 1. -/
def exExisting : Appointment :=
  { pk := some 1, client := 1, service := exService60, staff := 1,
    appointment_date := 0, appointment_time := 600, status := Status.pending,
    client_package := none, client_service_session := none }

/-- Store holding only the 10:00 appointment. -/
def exStore : Store :=
  { appointments := [exExisting], client_packages := [], client_sessions := [],
    next_pk := 2, today := 0 }

/-- A new, unsaved appointment for the same staff and day at minute t. -/
def exApp (t : Nat) : Appointment :=
  { pk := none, client := 2, service := exService60, staff := 1,
    appointment_date := 0, appointment_time := t, status := Status.pending,
    client_package := none, client_service_session := none }

/-- The 10:00 appointment, cancelled. -/
def c9Cancelled : Appointment := { exExisting with status := Status.cancelled }

/-- The 10:00 appointment, completed. -/
def c9Completed : Appointment := { exExisting with status := Status.completed }

/-- Store holding only the cancelled 10:00 appointment. -/
def c9StoreCancelled : Store := { exStore with appointments := [c9Cancelled] }

/-- Store holding only the completed 10:00 appointment. -/
def c9StoreCompleted : Store := { exStore with appointments := [c9Completed] }

/-- A new appointment at the exact triple of the existing one. -/
def c9New : Appointment := exApp 600

/-- Package.clean: once the row is persisted, between 3 and 5 linked
services. -/
def Package.clean (p : Package) : Except String Unit :=
  if p.pk.isSome then
    if p.services.length < 3 then
      Except.error "Package must include at least 3 services."
    else if p.services.length > 5 then
      Except.error "Package cannot include more than 5 services."
    else Except.ok ()
  else Except.ok ()

/-- Package.save: the database write first (a new row is assigned the next
primary key), then full_clean, but only when the row has a primary key and
at least one linked service. -/
def Package.save (next_pk : Nat) (p : Package) : Except String Package :=
  let p1 :=
    match p.pk with
    | none => { p with pk := some next_pk }
    | some _ => p
  if p1.pk.isSome && !p1.services.isEmpty then
    match Package.clean p1 with
    | Except.error e => Except.error e
    | Except.ok _ => Except.ok p1
  else
    Except.ok p1

/-- A persisted package with no linked services at all. -/
def c6NoServices : Package := { pk := some 1, services := [], total_sessions := 10 }

/-- A persisted package with two linked services. -/
def c6TwoServices : Package := { pk := some 1, services := [11, 12], total_sessions := 10 }

/-- The service foreign key an appointment row carries, as read by
OrderItem.clean (pos/models.py): only appointment.service is compared. -/
structure AppointmentLink where
  service : Nat
deriving DecidableEq, Repr

/-- OrderItem (pos/models.py).  Product and service are optional foreign
keys (ids), appointment an optional link carrying its service id; quantity
is a positive integer field; prices are exact decimal amounts, modelled as
rationals; id is none until the row is persisted. -/
structure OrderItem where
  id : Option Nat
  product : Option Nat
  service : Option Nat
  appointment : Option AppointmentLink
  quantity : Nat
  unit_price : ℚ
  subtotal : ℚ
deriving DecidableEq, Repr

/-- One order with its line items, as seen by OrderItem.save: the items
list is order.items.all() and total_price the persisted order total. -/
structure OrderState where
  items : List OrderItem
  total_price : ℚ
  next_id : Nat
deriving DecidableEq, Repr

/-- OrderItem.clean: exactly one of product or service must be set, and
when both a service and an appointment are set they must carry the same
service. -/
def OrderItem.clean (i : OrderItem) : Except String Unit :=
  if i.product = none ∧ i.service = none then
    Except.error "Order item must have either a product or a service."
  else if i.product ≠ none ∧ i.service ≠ none then
    Except.error "Order item cannot have both a product and a service."
  else
    match i.service, i.appointment with
    | some s, some ap =>
      if ap.service ≠ s then
        Except.error "Appointment service must match order item service."
      else
        Except.ok ()
    | _, _ => Except.ok ()

/-- OrderItem.save: full_clean, then subtotal := quantity * unit_price,
then the database write (insert assigning the next id, or update in
place), then recompute the parent order total as the sum of the subtotals
of all its items. -/
def OrderItem.save (st : OrderState) (i : OrderItem) :
    Except String (OrderState × OrderItem) :=
  match OrderItem.clean i with
  | Except.error e => Except.error e
  | Except.ok _ =>
    let i1 := { i with subtotal := (i.quantity : ℚ) * i.unit_price }
    let p : OrderState × OrderItem :=
      match i1.id with
      | none =>
        let i2 := { i1 with id := some st.next_id }
        ({ st with items := st.items ++ [i2], next_id := st.next_id + 1 }, i2)
      | some k =>
        ({ st with items := st.items.map fun x => if x.id = some k then i1 else x }, i1)
    Except.ok ({ p.1 with total_price := (p.1.items.map OrderItem.subtotal).sum }, p.2)

/-- Deleting a line item: the row disappears and nothing recomputes the
order total (no delete hook exists in the source). -/
def removeItem (st : OrderState) (k : Nat) : OrderState :=
  { st with items := st.items.filter fun x => x.id ≠ some k }

/-- Every persisted line item records its own quantity times unit price as
its subtotal: the state OrderItem.save leaves behind. -/
def ItemsConsistent (st : OrderState) : Prop :=
  ∀ i ∈ st.items, i.subtotal = (i.quantity : ℚ) * i.unit_price

/-- An order item carrying a stale subtotal before being saved. -/
def c7Item : OrderItem :=
  { id := none, product := some 1, service := none, appointment := none,
    quantity := 3, unit_price := 5, subtotal := 999 }

/-- An empty order. -/
def emptyOrder : OrderState := { items := [], total_price := 0, next_id := 1 }

/-- The item c7Item as persisted by the save. -/
def c7Saved : OrderItem := { c7Item with id := some 1, subtotal := 15 }

/-- The order after saving c7Item. -/
def c7After : OrderState := { items := [c7Saved], total_price := 15, next_id := 2 }

/-- First line item: two units at price 10. -/
def c5ItemA : OrderItem :=
  { id := none, product := some 1, service := none, appointment := none,
    quantity := 2, unit_price := 10, subtotal := 0 }

/-- Second line item: one unit at price 7. -/
def c5ItemB : OrderItem :=
  { id := none, product := some 2, service := none, appointment := none,
    quantity := 1, unit_price := 7, subtotal := 5 }

/-- The first item as persisted. -/
def c5SavedA : OrderItem := { c5ItemA with id := some 1, subtotal := 20 }

/-- The second item as persisted. -/
def c5SavedB : OrderItem := { c5ItemB with id := some 2, subtotal := 7 }

/-- The order holding the first item only. -/
def c5After1 : OrderState := { items := [c5SavedA], total_price := 20, next_id := 2 }

/-- The order after saving both items: subtotals 20 and 7, total 27. -/
def c5After2 : OrderState := { items := [c5SavedA, c5SavedB], total_price := 27, next_id := 3 }

/-- The order after deleting item 1 and re-saving item 2: total 7. -/
def c5After3 : OrderState := { items := [c5SavedB], total_price := 7, next_id := 3 }

/-- Full field-level description of the ClientPackage.save override, used to
assemble the claim theorems about the save path. -/
theorem clientPackage_save_fields (today : Nat) (cp : ClientPackage) :
    ((cp.save today).is_completed = true ↔
      cp.sessions_completed ≥ cp.package.total_sessions) ∧
    (cp.save today).sessions_completed = cp.sessions_completed ∧
    (cp.save today).package = cp.package ∧
    (cp.sessions_completed ≥ cp.package.total_sessions → cp.is_completed = false →
      (cp.save today).completed_date =
        (if cp.completed_date = none then some today else cp.completed_date)) ∧
    (cp.sessions_completed < cp.package.total_sessions → cp.is_completed = true →
      (cp.save today).completed_date = none) ∧
    ((cp.is_completed = true ↔ cp.sessions_completed ≥ cp.package.total_sessions) →
      cp.save today = cp) ∧
    (cp.save today).save today = cp.save today := by
  by_cases hge : cp.sessions_completed ≥ cp.package.total_sessions <;>
    by_cases hfl : cp.is_completed = true <;>
    simp [ClientPackage.save, hge, hfl]

/-- Full field-level description of the ClientServiceSession.save override. -/
theorem clientServiceSession_save_fields (today : Nat) (cs : ClientServiceSession) :
    ((cs.save today).is_completed = true ↔
      cs.sessions_completed ≥ cs.service.sessions_required) ∧
    (cs.save today).sessions_completed = cs.sessions_completed ∧
    (cs.save today).service = cs.service ∧
    (cs.sessions_completed ≥ cs.service.sessions_required → cs.is_completed = false →
      (cs.save today).completed_date =
        (if cs.completed_date = none then some today else cs.completed_date)) ∧
    (cs.sessions_completed < cs.service.sessions_required → cs.is_completed = true →
      (cs.save today).completed_date = none) ∧
    ((cs.is_completed = true ↔ cs.sessions_completed ≥ cs.service.sessions_required) →
      cs.save today = cs) ∧
    (cs.save today).save today = cs.save today := by
  by_cases hge : cs.sessions_completed ≥ cs.service.sessions_required <;>
    by_cases hfl : cs.is_completed = true <;>
    simp [ClientServiceSession.save, hge, hfl]

/-- Claim C2: for any ClientPackage (resp. ClientServiceSession) that is not
yet completed, add_session returns success and increments the counter by
exactly one, and when the incremented counter reaches or exceeds the target
it also sets is_completed and stamps today as the completion date; on an
already-completed record it returns failure and changes nothing. -/
theorem add_session_spec (today : Nat) :
    (∀ cp : ClientPackage, cp.is_completed = false →
      (cp.add_session today).1 = true ∧
      (cp.add_session today).2.sessions_completed = cp.sessions_completed + 1 ∧
      (cp.sessions_completed + 1 ≥ cp.package.total_sessions →
        (cp.add_session today).2.is_completed = true ∧
        (cp.add_session today).2.completed_date = some today)) ∧
    (∀ cp : ClientPackage, cp.is_completed = true → cp.add_session today = (false, cp)) ∧
    (∀ cs : ClientServiceSession, cs.is_completed = false →
      (cs.add_session today).1 = true ∧
      (cs.add_session today).2.sessions_completed = cs.sessions_completed + 1 ∧
      (cs.sessions_completed + 1 ≥ cs.service.sessions_required →
        (cs.add_session today).2.is_completed = true ∧
        (cs.add_session today).2.completed_date = some today)) ∧
    (∀ cs : ClientServiceSession, cs.is_completed = true → cs.add_session today = (false, cs)) := by
  refine ⟨fun cp h => ?_, fun cp h => ?_, fun cs h => ?_, fun cs h => ?_⟩
  · by_cases hge : cp.sessions_completed + 1 ≥ cp.package.total_sessions <;>
      simp [ClientPackage.add_session, ClientPackage.save, h, hge]
  · simp [ClientPackage.add_session, h]
  · by_cases hge : cs.sessions_completed + 1 ≥ cs.service.sessions_required <;>
      simp [ClientServiceSession.add_session, ClientServiceSession.save, h, hge]
  · simp [ClientServiceSession.add_session, h]

/-- Witness for claim C2 at concrete records: a counter at target minus one
completes with today stamped, and a completed record refuses. -/
theorem add_session_spec_witness :
    ((cpNearDone.add_session 9).1 = true ∧
      (cpNearDone.add_session 9).2.sessions_completed = cpNearDone.sessions_completed + 1 ∧
      (cpNearDone.add_session 9).2.is_completed = true ∧
      (cpNearDone.add_session 9).2.completed_date = some 9) ∧
    cpDone.add_session 9 = (false, cpDone) ∧
    ((csNearDone.add_session 9).1 = true ∧
      (csNearDone.add_session 9).2.is_completed = true) ∧
    csDone.add_session 9 = (false, csDone) := by
  obtain ⟨h1, h2, h3, h4⟩ := add_session_spec 9
  have w1 := h1 cpNearDone (by decide)
  have w3 := h3 csNearDone (by decide)
  exact ⟨⟨w1.1, w1.2.1, (w1.2.2 (by decide)).1, (w1.2.2 (by decide)).2⟩,
    h2 cpDone (by decide),
    ⟨w3.1, (w3.2.2 (by decide)).1⟩,
    h4 csDone (by decide)⟩

/-- Counterexample to claim C4 as stated: saving with sessions_completed
below the target does not always null completed_date; when is_completed is
already false the save override leaves a stale completion date in place. -/
theorem save_below_target_keeps_stale_date :
    cpStaleDate.sessions_completed < cpStaleDate.package.total_sessions ∧
    cpStaleDate.save 9 = cpStaleDate ∧
    (cpStaleDate.save 9).completed_date ≠ none := by
  decide

/-- Claim C4 (amended): every save establishes the invariant
is_completed = (sessions_completed at least target) without touching the
counter; when the save flips the flag from false to true it stamps
completed_date if it was unset; when it flips the flag from true to false it
nulls completed_date; when the flag already agrees with the counter the
record is returned unchanged, and save is idempotent in both directions. -/
theorem save_completion_invariant (today : Nat) :
    (∀ cp : ClientPackage,
      ((cp.save today).is_completed = true ↔
        cp.sessions_completed ≥ cp.package.total_sessions) ∧
      (cp.save today).sessions_completed = cp.sessions_completed ∧
      (cp.sessions_completed ≥ cp.package.total_sessions → cp.is_completed = false →
        (cp.save today).completed_date =
          (if cp.completed_date = none then some today else cp.completed_date)) ∧
      (cp.sessions_completed < cp.package.total_sessions → cp.is_completed = true →
        (cp.save today).completed_date = none) ∧
      ((cp.is_completed = true ↔ cp.sessions_completed ≥ cp.package.total_sessions) →
        cp.save today = cp) ∧
      (cp.save today).save today = cp.save today) ∧
    (∀ cs : ClientServiceSession,
      ((cs.save today).is_completed = true ↔
        cs.sessions_completed ≥ cs.service.sessions_required) ∧
      (cs.save today).sessions_completed = cs.sessions_completed ∧
      (cs.sessions_completed ≥ cs.service.sessions_required → cs.is_completed = false →
        (cs.save today).completed_date =
          (if cs.completed_date = none then some today else cs.completed_date)) ∧
      (cs.sessions_completed < cs.service.sessions_required → cs.is_completed = true →
        (cs.save today).completed_date = none) ∧
      ((cs.is_completed = true ↔ cs.sessions_completed ≥ cs.service.sessions_required) →
        cs.save today = cs) ∧
      (cs.save today).save today = cs.save today) := by
  refine ⟨fun cp => ?_, fun cs => ?_⟩
  · obtain ⟨a, b, _, c, d, e, f⟩ := clientPackage_save_fields today cp
    exact ⟨a, b, c, d, e, f⟩
  · obtain ⟨a, b, _, c, d, e, f⟩ := clientServiceSession_save_fields today cs
    exact ⟨a, b, c, d, e, f⟩

/-- Witness for the amended claim C4 at concrete records: saving a manually
raised counter sets the flag and stamps the date, saving a manually dropped
counter clears the flag and nulls the date, and both are idempotent. -/
theorem save_completion_invariant_witness :
    ((cpRaised.save 9).is_completed = true ∧
      (cpRaised.save 9).completed_date = some 9) ∧
    ((cpDropped.save 9).is_completed = false ∧
      (cpDropped.save 9).completed_date = none) ∧
    (cpDropped.save 9).save 9 = cpDropped.save 9 := by
  obtain ⟨hcp, _⟩ := save_completion_invariant 9
  obtain ⟨r1, _, r3, _, _, _⟩ := hcp cpRaised
  obtain ⟨d1, _, _, d4, _, d6⟩ := hcp cpDropped
  refine ⟨⟨r1.mpr (by decide), ?_⟩, ⟨?_, d4 (by decide) (by decide)⟩, d6⟩
  · have := r3 (by decide) (by decide)
    simpa using this
  · have hne : ¬(cpDropped.save 9).is_completed = true := fun h => by
      have := d1.mp h
      simp [cpDropped, pkgThree] at this
    simpa using hne

/-- Claim C3, evaluated at its failing inputs.  Completing an unlinked
appointment does link the first matching incomplete package (respectively
the found-or-created session row for a multi-session service), but the
counter advances by two, not one: the nested save that persists the link
re-enters the completed branch and calls add_session again.  The third
conjunct confirms the part of the claim that holds: a single-session
service with no matching package produces no tracking record. -/
theorem auto_track_advances_counter_twice :
    (Appointment.save c3Store c3Appt).map
        (fun r => (r.1.client_packages.map ClientPackage.sessions_completed, r.2.client_package))
      = Except.ok ([2], some 100) ∧
    (Appointment.save c3bStore c3bAppt).map
        (fun r => (r.1.client_sessions.map (fun cs => (cs.id, cs.sessions_completed)),
          r.2.client_service_session))
      = Except.ok ([(200, 2)], some 200) ∧
    (Appointment.save c3cStore c3cAppt).map
        (fun r => (r.1.client_packages, r.1.client_sessions, r.2.client_package,
          r.2.client_service_session))
      = Except.ok ([], [], none, none) := ⟨rfl, rfl, rfl⟩

/-- Appointment.clean on a record without a primary key is the overlap
scan. -/
theorem Appointment.clean_new (db : List Appointment) (a : Appointment) (hnew : a.pk = none) :
    Appointment.clean db a =
      if db.any a.overlapsActive then
        Except.error (SaveError.validation "Appointment overlaps with existing appointment")
      else Except.ok () := by
  simp [Appointment.clean, hnew]

/-- The database write fails only with IntegrityError. -/
theorem Appointment.superSave_error_integrity {st : Store} {a : Appointment} {e : SaveError}
    (h : Appointment.superSave st a = Except.error e) : e = SaveError.integrity := by
  unfold Appointment.superSave at h
  rcases hpk : a.pk with _ | k <;> rw [hpk] at h <;> dsimp at h <;> split at h <;>
    simp_all

/-- Claim C1: saving a new appointment raises a validation error exactly
when some persisted appointment of the same staff member and date with
status pending or confirmed overlaps it under the half-open rule; the check
is skipped for persisted records; concretely, against a 10:00 booking of a
sixty-minute service, 10:30 is rejected and 11:00 is accepted. -/
theorem new_appointment_overlap_rejected (st : Store) (a : Appointment)
    (hnew : a.pk = none) (hwf : ∀ e ∈ st.appointments, e.pk ≠ none) :
    (isValidationFailure (Appointment.save st a) = true ↔
      ∃ e ∈ st.appointments, e.staff = a.staff ∧ e.appointment_date = a.appointment_date ∧
        (e.status = Status.pending ∨ e.status = Status.confirmed) ∧
        a.startMinute < e.endMinute ∧ a.endMinute > e.startMinute) ∧
    (∀ (db : List Appointment) (b : Appointment), b.pk ≠ none →
      Appointment.clean db b = Except.ok ()) ∧
    isValidationFailure (Appointment.save exStore (exApp 630)) = true ∧
    exceptIsOk (Appointment.save exStore (exApp 660)) = true := by
  refine ⟨?_, ?_, by decide, by decide⟩
  · rw [Appointment.save]
    by_cases ha : st.appointments.any a.overlapsActive
    · constructor
      · intro _
        obtain ⟨e, he, hp⟩ := List.any_eq_true.mp ha
        rw [Appointment.overlapsActive, decide_eq_true_eq] at hp
        exact ⟨e, he, hp.1, hp.2.1, hp.2.2.1, hp.2.2.2.2⟩
      · intro _
        rw [Appointment.saveFuel, Appointment.clean_new st.appointments a hnew, if_pos ha]
        rfl
    · rw [Appointment.saveFuel, Appointment.clean_new st.appointments a hnew, if_neg ha]
      constructor
      · intro hv
        exfalso
        rcases hs : Appointment.superSave st a with e | p
        · rw [hs] at hv
          rw [Appointment.superSave_error_integrity hs] at hv
          simp [isValidationFailure] at hv
        · rw [hs] at hv
          simp only [hnew, Option.isNone_none] at hv
          simp [isValidationFailure] at hv
      · rintro ⟨e, he, h1, h2, h3, h4, h5⟩
        exact absurd (List.any_eq_true.mpr ⟨e, he,
          by rw [Appointment.overlapsActive, decide_eq_true_eq]
             exact ⟨h1, h2, h3, hwf e he, h4, h5⟩⟩) ha
  · intro db b hb
    rcases hh : b.pk with _ | k
    · exact absurd hh hb
    · simp [Appointment.clean, hh]

/-- Claim C9: the unique (staff, date, time) constraint rejects saving a
new appointment at an occupied triple whatever the statuses involved, a
successful insert never duplicates a persisted triple, and at the concrete
exempt statuses (cancelled, completed) the overlap check passes while the
constraint still rejects. -/
theorem unique_staff_time_rejects_duplicates (st : Store) (a : Appointment)
    (hnew : a.pk = none)
    (hwf : ∀ e ∈ st.appointments, ∀ k, e.pk = some k → k < st.next_pk)
    (hdup : ∃ e ∈ st.appointments, e.staff = a.staff ∧
      e.appointment_date = a.appointment_date ∧ e.appointment_time = a.appointment_time) :
    exceptIsOk (Appointment.save st a) = false ∧
    (∀ (st2 : Store) (b : Appointment) (st3 : Store) (b1 : Appointment),
      b.pk = none →
      (∀ e ∈ st2.appointments, ∀ k, e.pk = some k → k < st2.next_pk) →
      Appointment.superSave st2 b = Except.ok (st3, b1) →
      ∀ e ∈ st2.appointments, ¬(e.staff = b1.staff ∧
        e.appointment_date = b1.appointment_date ∧
        e.appointment_time = b1.appointment_time)) ∧
    (Appointment.clean c9StoreCancelled.appointments c9New = Except.ok () ∧
      Appointment.save c9StoreCancelled c9New = Except.error SaveError.integrity) ∧
    (Appointment.clean c9StoreCompleted.appointments c9New = Except.ok () ∧
      Appointment.save c9StoreCompleted c9New = Except.error SaveError.integrity) := by
  refine ⟨?_, ?_, ⟨rfl, rfl⟩, ⟨rfl, rfl⟩⟩
  · rw [Appointment.save, Appointment.saveFuel,
      Appointment.clean_new st.appointments a hnew]
    by_cases ha : st.appointments.any a.overlapsActive
    · rw [if_pos ha]
      rfl
    · rw [if_neg ha]
      have hconf : uniqueConflict st.appointments st.next_pk
          { a with pk := some st.next_pk } = true := by
        obtain ⟨e, he, h1, h2, h3⟩ := hdup
        refine List.any_eq_true.mpr ⟨e, he, decide_eq_true ⟨?_, h1, h2, h3⟩⟩
        rcases hh : e.pk with _ | k
        · simp
        · have := hwf e he k hh
          simp
          omega
      rw [Appointment.superSave, hnew]
      dsimp only
      rw [if_pos hconf]
      rfl
  · intro st2 b st3 b1 hb hwf2 hsave e he
    rw [Appointment.superSave, hb] at hsave
    dsimp only at hsave
    by_cases hc : uniqueConflict st2.appointments st2.next_pk { b with pk := some st2.next_pk }
    · rw [if_pos hc] at hsave
      exact absurd hsave (by simp)
    · rw [if_neg hc] at hsave
      have hb1 : b1 = { b with pk := some st2.next_pk } := by
        injection hsave with h
        injection h with h1 h2
        exact h2.symm
      rintro ⟨h1, h2, h3⟩
      apply hc
      refine List.any_eq_true.mpr ⟨e, he, decide_eq_true ⟨?_, ?_, ?_, ?_⟩⟩
      · rcases hh : e.pk with _ | k
        · simp
        · have := hwf2 e he k hh
          simp
          omega
      · rw [hb1] at h1
        exact h1
      · rw [hb1] at h2
        exact h2
      · rw [hb1] at h3
        exact h3

/-- Witness for claim C1 at a concrete store: the half-open overlap at 10:30
against a 10:00 to 11:00 booking is rejected, and a persisted appointment is
not checked. -/
theorem new_appointment_overlap_rejected_witness :
    isValidationFailure (Appointment.save exStore (exApp 630)) = true ∧
    Appointment.clean exStore.appointments exExisting = Except.ok () := by
  have h := new_appointment_overlap_rejected exStore (exApp 630) rfl (by decide)
  exact ⟨h.2.2.1, h.2.1 exStore.appointments exExisting (by decide)⟩

/-- Witness for claim C9 at a concrete store: a new appointment at the exact
triple of a persisted cancelled appointment is rejected. -/
theorem unique_staff_time_rejects_duplicates_witness :
    exceptIsOk (Appointment.save c9StoreCancelled c9New) = false := by
  have h := unique_staff_time_rejects_duplicates c9StoreCancelled c9New rfl (by decide)
    ⟨c9Cancelled, by decide, by decide, by decide, by decide⟩
  exact h.1

/-- Counterexample to claim C6 as stated: a persisted package with zero
linked services, a count outside [3,5], saves without any validation
error, because the save hook re-validates only when at least one service is
linked. -/
theorem package_zero_services_saves :
    c6NoServices.pk ≠ none ∧ c6NoServices.services.length < 3 ∧
    Package.save 2 c6NoServices = Except.ok c6NoServices :=
  ⟨by decide, by decide, rfl⟩

/-- Claim C6 (amended): for a persisted package with at least one linked
service, saving fails validation exactly when the linked-service count is
outside [3,5]; with zero linked services validation is skipped and the
save succeeds. -/
theorem package_service_count_validation (p : Package) (k n : Nat) (hpk : p.pk = some k) :
    (p.services ≠ [] →
      (exceptIsOk (Package.save n p) = false ↔
        p.services.length < 3 ∨ p.services.length > 5)) ∧
    (p.services = [] → Package.save n p = Except.ok p) := by
  constructor
  · intro hne
    rw [Package.save, hpk]
    dsimp only
    rw [if_pos (show (p.pk.isSome && !p.services.isEmpty) = true by
      rw [hpk]
      simpa using hne)]
    by_cases h3 : p.services.length < 3
    · simp [Package.clean, hpk, h3, exceptIsOk]
    · by_cases h5 : p.services.length > 5
      · simp [Package.clean, hpk, h3, h5, exceptIsOk]
      · simp [Package.clean, hpk, h3, h5, exceptIsOk]
  · intro hemp
    rw [Package.save, hpk]
    dsimp only
    simp [hemp]

/-- Witness for the amended claim C6 at concrete packages: two linked
services are rejected, zero linked services save. -/
theorem package_service_count_validation_witness :
    exceptIsOk (Package.save 7 c6TwoServices) = false ∧
    Package.save 7 c6NoServices = Except.ok c6NoServices := by
  refine ⟨?_, (package_service_count_validation c6NoServices 1 7 rfl).2 rfl⟩
  exact ((package_service_count_validation c6TwoServices 1 7 rfl).1 (by decide)).mpr
    (Or.inl (by decide))

/-- A successful OrderItem.save preserves per-item consistency and leaves
the order total equal to the sum of quantity times unit price over all
items of the order. -/
theorem OrderItem.save_ok_total {st : OrderState} {i : OrderItem}
    {st1 : OrderState} {i1 : OrderItem} (hw : ItemsConsistent st)
    (h : OrderItem.save st i = Except.ok (st1, i1)) :
    ItemsConsistent st1 ∧
    st1.total_price = (st1.items.map fun x => (x.quantity : ℚ) * x.unit_price).sum := by
  rw [OrderItem.save] at h
  rcases hc : OrderItem.clean i with e | u <;> rw [hc] at h
  · cases h
  · rcases hid : i.id with _ | k <;>
      simp only [hid, Except.ok.injEq, Prod.mk.injEq] at h <;>
      obtain ⟨h3, h4⟩ := h
    · have hcons : ItemsConsistent st1 := by
        rw [← h3]
        intro x hx
        dsimp only at hx
        rcases List.mem_append.mp hx with hx1 | hx2
        · exact hw x hx1
        · rcases List.mem_singleton.mp hx2 with rfl
          rfl
      have ht : st1.total_price = (st1.items.map OrderItem.subtotal).sum := by
        rw [← h3]
      rw [ht]
      exact ⟨hcons, congrArg List.sum (List.map_congr_left fun x hx => hcons x hx)⟩
    · have hcons : ItemsConsistent st1 := by
        rw [← h3]
        intro x hx
        dsimp only at hx
        obtain ⟨y, hy, hxy⟩ := List.mem_map.mp hx
        by_cases hk : y.id = some k
        · rw [if_pos hk] at hxy
          rw [← hxy]
        · rw [if_neg hk] at hxy
          rw [← hxy]
          exact hw y hy
      have ht : st1.total_price = (st1.items.map OrderItem.subtotal).sum := by
        rw [← h3]
      rw [ht]
      exact ⟨hcons, congrArg List.sum (List.map_congr_left fun x hx => hcons x hx)⟩

/-- Claim C7: a successful OrderItem.save always writes
subtotal = quantity * unit_price on the saved item, whatever subtotal was
supplied before the save (exact arithmetic on decimal amounts). -/
theorem orderitem_save_sets_subtotal {st : OrderState} {i : OrderItem}
    {st1 : OrderState} {i1 : OrderItem}
    (h : OrderItem.save st i = Except.ok (st1, i1)) :
    i1.subtotal = (i.quantity : ℚ) * i.unit_price := by
  rw [OrderItem.save] at h
  rcases hc : OrderItem.clean i with e | u <;> rw [hc] at h
  · cases h
  · rcases hid : i.id with _ | k <;>
      simp only [hid, Except.ok.injEq, Prod.mk.injEq] at h <;>
      obtain ⟨h3, h4⟩ := h <;> rw [← h4]

/-- Witness for claim C7 at a concrete item: the stale subtotal 999 is
replaced by 3 * 5. -/
theorem orderitem_save_sets_subtotal_witness :
    OrderItem.save emptyOrder c7Item = Except.ok (c7After, c7Saved) ∧
    c7Saved.subtotal = (c7Item.quantity : ℚ) * c7Item.unit_price := by
  have h : OrderItem.save emptyOrder c7Item = Except.ok (c7After, c7Saved) := by
    norm_num [OrderItem.save, OrderItem.clean, c7Item, c7After, c7Saved, emptyOrder]
    rfl
  exact ⟨h, orderitem_save_sets_subtotal h⟩

/-- Claim C5: every successful OrderItem.save leaves the parent order with
total_price equal to the sum of quantity times unit_price over all its
items (each stored sibling having itself been stored by save, recorded by
ItemsConsistent); deleting an item keeps the items consistent, and
re-saving any remaining sibling restores the same equality. -/
theorem order_total_recomputed (st : OrderState) (i : OrderItem) :
    (∀ (st1 : OrderState) (i1 : OrderItem), ItemsConsistent st →
      OrderItem.save st i = Except.ok (st1, i1) →
      ItemsConsistent st1 ∧
      st1.total_price = (st1.items.map fun x => (x.quantity : ℚ) * x.unit_price).sum) ∧
    (∀ k : Nat, ItemsConsistent st → ItemsConsistent (removeItem st k)) ∧
    (∀ (k : Nat) (st1 : OrderState) (i1 : OrderItem), ItemsConsistent st →
      OrderItem.save (removeItem st k) i = Except.ok (st1, i1) →
      st1.total_price = (st1.items.map fun x => (x.quantity : ℚ) * x.unit_price).sum) := by
  refine ⟨fun st1 i1 hw h => OrderItem.save_ok_total hw h,
    fun k hw x hx => hw x (List.mem_of_mem_filter hx),
    fun k st1 i1 hw h => ?_⟩
  exact (OrderItem.save_ok_total (fun x hx => hw x (List.mem_of_mem_filter hx)) h).2

/-- Witness for claim C5 at a concrete order: after two inserts the total
is 20 + 7; deleting the first item and re-saving the sibling recomputes the
total to 7, the sum over the remaining items. -/
theorem order_total_recomputed_witness :
    c5After2.total_price =
      (c5After2.items.map fun x => (x.quantity : ℚ) * x.unit_price).sum ∧
    c5After3.total_price =
      (c5After3.items.map fun x => (x.quantity : ℚ) * x.unit_price).sum := by
  constructor
  · have hw : ItemsConsistent c5After1 := by
      norm_num [ItemsConsistent, c5After1, c5SavedA, c5ItemA]
    have hs : OrderItem.save c5After1 c5ItemB = Except.ok (c5After2, c5SavedB) := by
      norm_num [OrderItem.save, OrderItem.clean, c5After1, c5After2, c5SavedA, c5SavedB,
        c5ItemA, c5ItemB]
      rfl
    exact ((order_total_recomputed c5After1 c5ItemB).1 c5After2 c5SavedB hw hs).2
  · have hw : ItemsConsistent c5After2 := by
      norm_num [ItemsConsistent, c5After2, c5SavedA, c5SavedB, c5ItemA, c5ItemB]
    have hs : OrderItem.save (removeItem c5After2 1) c5SavedB = Except.ok (c5After3, c5SavedB) := by
      norm_num [OrderItem.save, OrderItem.clean, removeItem, c5After2, c5After3, c5SavedA,
        c5SavedB, c5ItemA, c5ItemB]
      rfl
    exact (order_total_recomputed c5After2 c5SavedB).2.2 1 c5After3 c5SavedB hw hs

/-- Claim C8: OrderItem.save is rejected exactly when the item has neither
a product nor a service, or both, or a service together with an appointment
for a different service; in every other shape the write is accepted. -/
theorem orderitem_rejected_iff_malformed (st : OrderState) (i : OrderItem) :
    exceptIsOk (OrderItem.save st i) = false ↔
      (i.product = none ∧ i.service = none) ∨
      (i.product ≠ none ∧ i.service ≠ none) ∨
      (∃ (sv : Nat) (ap : AppointmentLink), i.service = some sv ∧
        i.appointment = some ap ∧ ap.service ≠ sv) := by
  have hsave : exceptIsOk (OrderItem.save st i) = exceptIsOk (OrderItem.clean i) := by
    rcases hc : OrderItem.clean i with e | u <;> rw [OrderItem.save, hc]
    · rfl
    · rcases hid : i.id with _ | k <;> simp [hid, exceptIsOk]
  rw [hsave]
  rcases i with ⟨iid, ip, isv, iap, q, up, sub⟩
  rcases ip with _ | pv <;> rcases isv with _ | sv <;> rcases iap with _ | ap <;>
    simp [OrderItem.clean, exceptIsOk]
  · by_cases hne : ap.service = sv <;> simp [hne, exceptIsOk]

end Skinova
